import Mathlib

/-!
Verification of the longitudinal vehicle model
(`Longitudinal_Vehicle_Model.py`, class `Vehicle`).

The Python class holds twelve fixed physical parameters, the integration
time step `sample_time`, and five mutable state fields
(`x`, `v`, `a`, `w_e`, `w_e_dot`).  Its `step(throttle, alpha)` method
evaluates the engine/load/tire-force equations from the current state and
then performs one explicit Euler update of `w_e`, `v` and `x`.

The embedding is parametric in a linear ordered field `K` (the source's
floating-point scalars are modelled as exact field elements) and in a
function `sinF : K → K` standing for `np.sin`, which the source calls but
does not define.  All definitions mirror the Python source line by line;
the record-update sequence in `Vehicle.step` reproduces the order of the
`self.…` assignments.
-/

namespace LongVehicle

/-- The `Vehicle` object: all `self.…` fields set in `Vehicle.__init__`,
in source order — throttle/torque coefficients, drivetrain parameters,
drag/friction coefficients, tire-force parameters, the five mutable state
variables, and the sampling time. -/
structure Vehicle (K : Type) where
  a_0 : K
  a_1 : K
  a_2 : K
  GR : K
  r_e : K
  J_e : K
  m : K
  g : K
  c_a : K
  c_r1 : K
  c : K
  F_max : K
  x : K
  v : K
  a : K
  w_e : K
  w_e_dot : K
  sample_time : K

variable {K : Type} [LinearOrderedField K]

/-- `Vehicle.__init__`: the literal numeric values assigned in the source
constructor. -/
def Vehicle.init : Vehicle K where
  a_0 := 400
  a_1 := 0.1
  a_2 := -0.0002
  GR := 0.35
  r_e := 0.3
  J_e := 10
  m := 2000
  g := 9.81
  c_a := 1.36
  c_r1 := 0.01
  c := 10000
  F_max := 10000
  x := 0
  v := 5
  a := 0
  w_e := 100
  w_e_dot := 0
  sample_time := 0.01

/-- `Vehicle.reset`: reassigns the five state variables to their initial
values, leaving every other field untouched. -/
def Vehicle.reset (self : Vehicle K) : Vehicle K :=
  { self with x := 0, v := 5, a := 0, w_e := 100, w_e_dot := 0 }

/-- `Vehicle.step(throttle, alpha)`: a line-by-line embedding of the
method body.  Each `self.…` assignment of the source becomes a record
update (`self1` … `self4`), so later lines read fields through the state
produced by the earlier assignments, exactly as the mutating Python code
does.  `sinF` stands for `np.sin`. -/
def Vehicle.step (sinF : K → K) (self : Vehicle K) (throttle alpha : K) :
    Vehicle K :=
  let T_e := throttle * (self.a_0 + self.a_1 * self.w_e + self.a_2 * self.w_e ^ 2)
  let F_areo := self.c_a * self.v ^ 2
  let R_x := self.c_r1 * self.v
  let F_g := self.m * self.g * sinF alpha
  let F_load := F_areo + R_x + F_g
  let self1 := { self with w_e_dot := (T_e - self.GR * self.r_e * F_load) / self.J_e }
  let w_w := self1.GR * self1.w_e
  let s := (w_w * self1.r_e - self1.v) / self1.v
  let F_x := if |s| < 1 then self1.c * s else self1.F_max
  let self2 := { self1 with a := (F_x - F_load) / self1.m }
  let self3 := { self2 with w_e := self2.w_e + self2.w_e_dot * self2.sample_time }
  let self4 := { self3 with v := self3.v + self3.a * self3.sample_time }
  { self4 with
      x := self4.x + (self4.v * self4.sample_time - 0.5 * self4.a * self4.sample_time ^ 2) }

/-- Engine torque `T_e = throttle * (a_0 + a_1*w_e + a_2*w_e^2)`,
read from the pre-call state. -/
def Vehicle.torque (self : Vehicle K) (throttle : K) : K :=
  throttle * (self.a_0 + self.a_1 * self.w_e + self.a_2 * self.w_e ^ 2)

/-- Total load force `F_load = c_a*v^2 + c_r1*v + m*g*sin(alpha)`,
read from the pre-call state. -/
def Vehicle.loadForce (sinF : K → K) (self : Vehicle K) (alpha : K) : K :=
  self.c_a * self.v ^ 2 + self.c_r1 * self.v + self.m * self.g * sinF alpha

/-- Engine angular acceleration `(T_e - GR*r_e*F_load) / J_e`,
read from the pre-call state. -/
def Vehicle.engineAccel (sinF : K → K) (self : Vehicle K) (throttle alpha : K) : K :=
  (self.torque throttle - self.GR * self.r_e * self.loadForce sinF alpha) / self.J_e

/-- Slip ratio `s = (w_w * r_e - v) / v` with `w_w = GR * w_e`,
read from the pre-call state. -/
def Vehicle.slip (self : Vehicle K) : K :=
  (self.GR * self.w_e * self.r_e - self.v) / self.v

/-- Tire force: `c * s` when `|s| < 1`, else `F_max`. -/
def Vehicle.tireForce (self : Vehicle K) : K :=
  if |self.slip| < 1 then self.c * self.slip else self.F_max

/-- Vehicle acceleration `(F_x - F_load) / m`, read from the pre-call
state. -/
def Vehicle.accel (sinF : K → K) (self : Vehicle K) (alpha : K) : K :=
  (self.tireForce - self.loadForce sinF alpha) / self.m

/-- The update of `step` written as a single simultaneous assignment from
the pre-call state, following the specification's formula list: the five
new field values are closed-form functions of the pre-call state, the
parameters and the two inputs. -/
def Vehicle.stepFormula (sinF : K → K) (self : Vehicle K) (throttle alpha : K) :
    Vehicle K :=
  let T_e := throttle * (self.a_0 + self.a_1 * self.w_e + self.a_2 * self.w_e ^ 2)
  let F_aero := self.c_a * self.v ^ 2
  let R_x := self.c_r1 * self.v
  let F_g := self.m * self.g * sinF alpha
  let F_load := F_aero + R_x + F_g
  let w_e_dot2 := (T_e - self.GR * self.r_e * F_load) / self.J_e
  let w_w := self.GR * self.w_e
  let s := (w_w * self.r_e - self.v) / self.v
  let F_x := if |s| < 1 then self.c * s else self.F_max
  let a2 := (F_x - F_load) / self.m
  let w_e2 := self.w_e + w_e_dot2 * self.sample_time
  let v2 := self.v + a2 * self.sample_time
  let x2 := self.x + (v2 * self.sample_time - 0.5 * a2 * self.sample_time ^ 2)
  { self with w_e_dot := w_e_dot2, a := a2, w_e := w_e2, v := v2, x := x2 }

/-- `Vehicle.step` with the slip-ratio division guarded: the method body
with the single state-dependent division `(w_w*r_e - v) / v` checked,
returning `none` exactly when the divisor `v` is zero and otherwise the
unguarded result.  The divisors of the two other divisions in the body
(`J_e` and `m`) are fixed parameters, not state. -/
def Vehicle.stepChecked (sinF : K → K) (self : Vehicle K) (throttle alpha : K) :
    Option (Vehicle K) :=
  let T_e := throttle * (self.a_0 + self.a_1 * self.w_e + self.a_2 * self.w_e ^ 2)
  let F_areo := self.c_a * self.v ^ 2
  let R_x := self.c_r1 * self.v
  let F_g := self.m * self.g * sinF alpha
  let F_load := F_areo + R_x + F_g
  let self1 := { self with w_e_dot := (T_e - self.GR * self.r_e * F_load) / self.J_e }
  let w_w := self1.GR * self1.w_e
  if self1.v = 0 then none
  else
    let s := (w_w * self1.r_e - self1.v) / self1.v
    let F_x := if |s| < 1 then self1.c * s else self1.F_max
    let self2 := { self1 with a := (F_x - F_load) / self1.m }
    let self3 := { self2 with w_e := self2.w_e + self2.w_e_dot * self2.sample_time }
    let self4 := { self3 with v := self3.v + self3.a * self3.sample_time }
    some { self4 with
      x := self4.x + (self4.v * self4.sample_time - 0.5 * self4.a * self4.sample_time ^ 2) }

/-- A sequence of `step` calls, one per `(throttle, alpha)` pair, in
order — the orchestration loop of the notebook. -/
def Vehicle.runSteps (sinF : K → K) (self : Vehicle K) :
    List (K × K) → Vehicle K
  | [] => self
  | (t, al) :: rest => (self.step sinF t al).runSteps sinF rest

/-- C1: a call to `step` updates exactly the five state fields, and the
new values are the closed-form expressions of the specification —
`T_e`, `F_aero`, `R_x`, `F_g`, `F_load`, `w_e_dot`, `w_w`, `s`, `F_x`,
`a` evaluated on the pre-call state, then
`w_e' = w_e + w_e_dot'*Δt`, `v' = v + a'*Δt`,
`x' = x + v'*Δt - 0.5*a'*Δt^2`. -/
theorem step_matches_formula (sinF : K → K) (veh : Vehicle K) (throttle alpha : K) :
    veh.step sinF throttle alpha = veh.stepFormula sinF throttle alpha := rfl

/-- C2: the tire force entering the acceleration is piecewise in the slip
ratio `s = (GR*w_e*r_e - v)/v`: the linear branch `c*s` when `|s| < 1`,
the constant `F_max` otherwise, with no sign adjustment; at `|s| = 1`
exactly, the saturated branch is taken. -/
theorem tireForce_piecewise (sinF : K → K) (veh : Vehicle K) (throttle alpha : K) :
    (veh.step sinF throttle alpha).a =
      ((if |veh.slip| < 1 then veh.c * veh.slip else veh.F_max) -
        veh.loadForce sinF alpha) / veh.m ∧
    (|veh.slip| < 1 →
      (veh.step sinF throttle alpha).a =
        (veh.c * veh.slip - veh.loadForce sinF alpha) / veh.m) ∧
    (1 ≤ |veh.slip| →
      (veh.step sinF throttle alpha).a =
        (veh.F_max - veh.loadForce sinF alpha) / veh.m) ∧
    (|veh.slip| = 1 →
      (veh.step sinF throttle alpha).a =
        (veh.F_max - veh.loadForce sinF alpha) / veh.m) := by
  have base : (veh.step sinF throttle alpha).a =
      ((if |veh.slip| < 1 then veh.c * veh.slip else veh.F_max) -
        veh.loadForce sinF alpha) / veh.m := rfl
  refine ⟨base, ?_, ?_, ?_⟩
  · intro h
    rw [base, if_pos h]
  · intro h
    rw [base, if_neg (not_lt.mpr h)]
  · intro h
    rw [base, if_neg (by rw [h]; exact lt_irrefl 1)]

/-- A concrete rational vehicle used to witness the slip-regime boundary:
its slip ratio is `(2*3*1 - 3)/3 = 1`, exactly on the branch point. -/
def sampleVehicle : Vehicle ℚ where
  a_0 := 400
  a_1 := 1
  a_2 := -2
  GR := 2
  r_e := 1
  J_e := 10
  m := 2000
  g := 10
  c_a := 1
  c_r1 := 1
  c := 100
  F_max := 500
  x := 0
  v := 3
  a := 0
  w_e := 3
  w_e_dot := 0
  sample_time := 1

/-- C2 witness: at a state whose slip ratio is exactly 1, the saturated
branch is taken and the acceleration uses `F_max`. -/
theorem tireForce_piecewise_witness :
    (sampleVehicle.step (fun _ => 0) 1 0).a =
      (sampleVehicle.F_max - sampleVehicle.loadForce (fun _ => 0) 0) /
        sampleVehicle.m :=
  (tireForce_piecewise (fun _ => 0) sampleVehicle 1 0).2.2.2
    (by norm_num [sampleVehicle, Vehicle.slip])

/-- C3: the final integration updates of `step` are, in order,
`w_e' = w_e + w_e_dot'*Δt`, `v' = v + a'*Δt`,
`x' = x + v'*Δt - 0.5*a'*Δt^2`; the position update reads the
just-updated velocity `v'`, while the velocity update uses the
acceleration `a'` computed from the pre-call state. -/
theorem step_update_order (sinF : K → K) (veh : Vehicle K) (throttle alpha : K) :
    (veh.step sinF throttle alpha).w_e =
      veh.w_e + (veh.step sinF throttle alpha).w_e_dot * veh.sample_time ∧
    (veh.step sinF throttle alpha).v =
      veh.v + (veh.step sinF throttle alpha).a * veh.sample_time ∧
    (veh.step sinF throttle alpha).x =
      veh.x + ((veh.step sinF throttle alpha).v * veh.sample_time -
        0.5 * (veh.step sinF throttle alpha).a * veh.sample_time ^ 2) ∧
    (veh.step sinF throttle alpha).a = veh.accel sinF alpha ∧
    (veh.step sinF throttle alpha).w_e_dot = veh.engineAccel sinF throttle alpha :=
  ⟨rfl, rfl, rfl, rfl, rfl⟩

/-- C4: the post-call state of `step` is a simultaneous function of the
pre-call state only — every intermediate quantity is evaluated on the
fields held before the call, and the values finally stored in `w_e_dot`,
`a`, `w_e`, `v`, `x` are closed-form in the pre-call state, the parameters
and the two inputs. -/
theorem step_reads_precall_state (sinF : K → K) (veh : Vehicle K) (throttle alpha : K) :
    veh.step sinF throttle alpha =
      { veh with
          w_e_dot := veh.engineAccel sinF throttle alpha
          a := veh.accel sinF alpha
          w_e := veh.w_e + veh.engineAccel sinF throttle alpha * veh.sample_time
          v := veh.v + veh.accel sinF alpha * veh.sample_time
          x := veh.x +
            ((veh.v + veh.accel sinF alpha * veh.sample_time) * veh.sample_time -
              0.5 * veh.accel sinF alpha * veh.sample_time ^ 2) } := rfl

/-- C5: construction sets the state to
(x=0, v=5, a=0, w_e=100, w_e_dot=0) with Δt = 0.01, and after any
sequence of `step` calls, `reset` returns all five state fields to
exactly those values. -/
theorem init_and_reset_state (sinF : K → K) (inputs : List (K × K)) :
    (Vehicle.init : Vehicle K).x = 0 ∧
    (Vehicle.init : Vehicle K).v = 5 ∧
    (Vehicle.init : Vehicle K).a = 0 ∧
    (Vehicle.init : Vehicle K).w_e = 100 ∧
    (Vehicle.init : Vehicle K).w_e_dot = 0 ∧
    (Vehicle.init : Vehicle K).sample_time = 0.01 ∧
    ((Vehicle.init.runSteps sinF inputs).reset : Vehicle K).x = 0 ∧
    ((Vehicle.init.runSteps sinF inputs).reset : Vehicle K).v = 5 ∧
    ((Vehicle.init.runSteps sinF inputs).reset : Vehicle K).a = 0 ∧
    ((Vehicle.init.runSteps sinF inputs).reset : Vehicle K).w_e = 100 ∧
    ((Vehicle.init.runSteps sinF inputs).reset : Vehicle K).w_e_dot = 0 :=
  ⟨rfl, rfl, rfl, rfl, rfl, rfl, rfl, rfl, rfl, rfl, rfl⟩

/-- C6: neither `step` nor `reset` mutates any fixed parameter or the
time step: all thirteen parameter fields are unchanged by either call,
and `reset` changes nothing but the five state fields. -/
theorem params_never_mutated (sinF : K → K) (veh : Vehicle K) (throttle alpha : K) :
    ((veh.step sinF throttle alpha).a_0 = veh.a_0 ∧
     (veh.step sinF throttle alpha).a_1 = veh.a_1 ∧
     (veh.step sinF throttle alpha).a_2 = veh.a_2 ∧
     (veh.step sinF throttle alpha).GR = veh.GR ∧
     (veh.step sinF throttle alpha).r_e = veh.r_e ∧
     (veh.step sinF throttle alpha).J_e = veh.J_e ∧
     (veh.step sinF throttle alpha).m = veh.m ∧
     (veh.step sinF throttle alpha).g = veh.g ∧
     (veh.step sinF throttle alpha).c_a = veh.c_a ∧
     (veh.step sinF throttle alpha).c_r1 = veh.c_r1 ∧
     (veh.step sinF throttle alpha).c = veh.c ∧
     (veh.step sinF throttle alpha).F_max = veh.F_max ∧
     (veh.step sinF throttle alpha).sample_time = veh.sample_time) ∧
    (veh.reset.a_0 = veh.a_0 ∧
     veh.reset.a_1 = veh.a_1 ∧
     veh.reset.a_2 = veh.a_2 ∧
     veh.reset.GR = veh.GR ∧
     veh.reset.r_e = veh.r_e ∧
     veh.reset.J_e = veh.J_e ∧
     veh.reset.m = veh.m ∧
     veh.reset.g = veh.g ∧
     veh.reset.c_a = veh.c_a ∧
     veh.reset.c_r1 = veh.c_r1 ∧
     veh.reset.c = veh.c ∧
     veh.reset.F_max = veh.F_max ∧
     veh.reset.sample_time = veh.sample_time) ∧
    veh.reset = { veh with x := 0, v := 5, a := 0, w_e := 100, w_e_dot := 0 } :=
  ⟨⟨rfl, rfl, rfl, rfl, rfl, rfl, rfl, rfl, rfl, rfl, rfl, rfl, rfl⟩,
   ⟨rfl, rfl, rfl, rfl, rfl, rfl, rfl, rfl, rfl, rfl, rfl, rfl, rfl⟩, rfl⟩

/-- C7: `step` is deterministic — two calls with equal pre-call vehicles
(state and parameters) and equal inputs produce equal post-call
vehicles; the computation reads nothing but its arguments. -/
theorem step_deterministic (sinF : K → K) (veh1 veh2 : Vehicle K)
    (t1 t2 al1 al2 : K) (hveh : veh1 = veh2) (ht : t1 = t2) (hal : al1 = al2) :
    veh1.step sinF t1 al1 = veh2.step sinF t2 al2 := by
  rw [hveh, ht, hal]

/-- C7 witness: determinism applied to the constructed vehicle over ℚ with
concrete inputs. -/
theorem step_deterministic_witness :
    (Vehicle.init : Vehicle ℚ).step (fun _ => 0) 1 0 =
      (Vehicle.init : Vehicle ℚ).step (fun _ => 0) 1 0 :=
  step_deterministic (fun _ => 0) Vehicle.init Vehicle.init 1 1 0 0 rfl rfl rfl

/-- C8: the slip-ratio division by the current velocity is the only
state-dependent division in `step` and is unguarded: with the single
state-dependent divisor checked, the guarded body succeeds and agrees
with `step` whenever `v ≠ 0`, and hits division by zero exactly when
`v = 0`. -/
theorem slip_division_unguarded (sinF : K → K) (veh : Vehicle K) (throttle alpha : K) :
    (veh.v ≠ 0 →
      veh.stepChecked sinF throttle alpha = some (veh.step sinF throttle alpha)) ∧
    (veh.v = 0 → veh.stepChecked sinF throttle alpha = none) := by
  constructor
  · intro h
    show (if veh.v = 0 then (none : Option (Vehicle K))
        else some (veh.step sinF throttle alpha)) =
      some (veh.step sinF throttle alpha)
    exact if_neg h
  · intro h
    show (if veh.v = 0 then (none : Option (Vehicle K))
        else some (veh.step sinF throttle alpha)) = none
    exact if_pos h

/-- C8 witness: over ℚ, the guarded step agrees with `step` at the
constructed state (v = 5 ≠ 0) and fails at the same state with v set
to 0. -/
theorem slip_division_unguarded_witness :
    (Vehicle.init : Vehicle ℚ).stepChecked (fun _ => 0) 1 0 =
      some ((Vehicle.init : Vehicle ℚ).step (fun _ => 0) 1 0) ∧
    ({ Vehicle.init with v := 0 } : Vehicle ℚ).stepChecked (fun _ => 0) 1 0 = none :=
  ⟨(slip_division_unguarded (fun _ => 0) Vehicle.init 1 0).1 (by decide),
   (slip_division_unguarded (fun _ => 0)
     ({ Vehicle.init with v := 0 } : Vehicle ℚ) 1 0).2 rfl⟩

/-- C9: over exact field arithmetic, the asymmetric position update
`x' = x + v'*Δt - 0.5*a'*Δt^2` with `v' = v + a'*Δt` equals the textbook
kinematic update `x' = x + v*Δt + 0.5*a'*Δt^2` with the pre-update
velocity, for every state, every input and every Δt. -/
theorem position_update_textbook (sinF : K → K) (veh : Vehicle K) (throttle alpha : K) :
    (veh.step sinF throttle alpha).x =
      veh.x + veh.v * veh.sample_time +
        0.5 * (veh.step sinF throttle alpha).a * veh.sample_time ^ 2 := by
  show veh.x +
      ((veh.v + veh.accel sinF alpha * veh.sample_time) * veh.sample_time -
        0.5 * veh.accel sinF alpha * veh.sample_time ^ 2) =
    veh.x + veh.v * veh.sample_time +
      0.5 * veh.accel sinF alpha * veh.sample_time ^ 2
  ring

/-- C10: the pre-call values of `a` and `w_e_dot` never influence the
post-call state: overwriting them arbitrarily before the call leaves the
result of `step` unchanged — they are pure outputs. -/
theorem accel_fields_pure_outputs (sinF : K → K) (veh : Vehicle K)
    (throttle alpha aPre wPre : K) :
    ({ veh with a := aPre, w_e_dot := wPre } : Vehicle K).step sinF throttle alpha =
      veh.step sinF throttle alpha := rfl

end LongVehicle
